import Mathlib

/-
Verification development for the IES FM10000 autonegotiation dispatcher
(src/src/api/fm10000/fm10000_api_an.c) and the libertyTrail transceiver
management sweep (src/src/platforms/libertyTrail/platform_mgmt.c).

The C sources are shallowly embedded below.  Machine words (fm_uint,
fm_uint64) are modelled as Nat with explicit field/bit extraction; the
generic state-machine framework (fmNotifyStateMachineEvent and friends),
which is outside the two source files, is modelled by an oracle of
statuses and by event traces.  Register-layout constants that live in
headers not present in the repository snapshot are modelled from the
spec and from the IEEE Clause 73 page formats the spec names; each such
definition carries a comment saying so.
-/

set_option autoImplicit false

/-- Status codes of the driver (fm_status).  Only the constructors the
embedded code can actually produce are distinguished; errOther stands for
any further non-OK code an external call might return. -/
inductive FmStatus where
  | ok
  | errNotFound
  | errUnsupported
  | errInvalidArgument
  | errInvalidPort
  | errNoFreeResources
  | errOther (code : Nat)
deriving DecidableEq

/-- Word helper modelling FM_GET_FIELD64: bits [lo, lo+width) of w. -/
def getField64 (w lo width : Nat) : Nat :=
  w / 2 ^ lo % 2 ^ width

/-- Word helper modelling FM_GET_UNNAMED_BIT64: bit i of w, as 0 or 1. -/
def getBit64 (w i : Nat) : Nat :=
  w / 2 ^ i % 2

/-- Word helper modelling FM_SET_FIELD64: replace bits [lo, lo+width) of w
by v (truncated to width bits, as the C macro masks the value). -/
def setField64 (w lo width v : Nat) : Nat :=
  w % 2 ^ lo + v % 2 ^ width * 2 ^ lo + w / 2 ^ (lo + width) * 2 ^ (lo + width)

theorem getField64_setField64 (w lo width v : Nat) :
    getField64 (setField64 w lo width v) lo width = v % 2 ^ width := by
  have hlo : 0 < 2 ^ lo := Nat.pos_pow_of_pos lo (by norm_num)
  have hwd : 0 < 2 ^ width := Nat.pos_pow_of_pos width (by norm_num)
  unfold getField64 setField64
  have hsplit : 2 ^ (lo + width) = 2 ^ lo * 2 ^ width := pow_add 2 lo width
  rw [hsplit]
  have h1 : w % 2 ^ lo + v % 2 ^ width * 2 ^ lo
      + w / (2 ^ lo * 2 ^ width) * (2 ^ lo * 2 ^ width)
      = w % 2 ^ lo + 2 ^ lo * (v % 2 ^ width + 2 ^ width * (w / (2 ^ lo * 2 ^ width))) := by
    ring
  rw [h1, Nat.add_mul_div_left _ _ hlo, Nat.div_eq_of_lt (Nat.mod_lt w hlo), Nat.zero_add,
    Nat.add_mul_mod_self_left, Nat.mod_mod_of_dvd _ dvd_rfl]

/-
AN interrupt dispatch (fm10000_api_an.c, NotifyClause73Events lines 83-193,
NotifyClause37Events lines 214-341, fm10000AnEventHandler lines 1102-1196).

The FM10000_AN_IP register is read only through named FM_GET_BIT accesses,
so the pending mask is embedded as a structure of named booleans, one per
field the two source files touch.  fmNotifyStateMachineEvent is outside the
repository; the status of its n-th invocation within one handler call is
supplied by an oracle (Nat to FmStatus), and the events handed to it are
collected in a trace.
-/

/-- Pending-interrupt mask FM10000_AN_IP, one boolean per named field read
by the dispatcher. -/
structure AnIp where
  an73AbilityDetect : Bool
  an73AcknowledgeDetect : Bool
  an73CompleteAcknowledge : Bool
  an73NextPageWait : Bool
  an73AnGoodCheck : Bool
  an73AnGood : Bool
  an73TransmitDisable : Bool
  an73MrPageRx : Bool
  an73ReceiveIdle : Bool
  an37AnEnable : Bool
  an37AnRestart : Bool
  an37AnDisableLinkOk : Bool
  an37AbilityDetect : Bool
  an37AcknowledgeDetect : Bool
  an37CompleteAcknowledge : Bool
  an37NextPageWait : Bool
  an37IdleDetect : Bool
  an37LinkOk : Bool
  an37MrPageRx : Bool
deriving DecidableEq

/-- Event identifiers sent to the per-port AN state machine
(FM10000_AN_EVENT_XXX_IND). -/
inductive AnEventId where
  | abilityDetectInd
  | ackDetectInd
  | completeAckInd
  | nextPageWaitInd
  | goodCheckInd
  | goodInd
  | transmitDisableInd
  | enableInd
  | restartInd
  | disableLinkOkInd
  | idleDetectInd
  | linkOkInd
deriving DecidableEq

/-- A dispatcher state during one Notify call: the running status, the
events delivered so far and the number of fmNotifyStateMachineEvent calls
made so far (the index into the oracle). -/
abbrev NotifyState := FmStatus × List AnEventId × Nat

/-- One guarded block of NotifyClause73Events / NotifyClause37Events:
if a previous block aborted (status not OK, i.e. the C goto ABORT was
taken) nothing happens; otherwise, if the bit is pending, the event is
delivered and the oracle supplies the resulting status. -/
def notifyStep (oracle : Nat → FmStatus) (pending : Bool) (e : AnEventId)
    (st : NotifyState) : NotifyState :=
  if st.1 ≠ FmStatus.ok then st
  else if pending then (oracle st.2.2, st.2.1 ++ [e], st.2.2 + 1)
  else st

/-- Sequence of guarded blocks, in source order. -/
def notifySeq (oracle : Nat → FmStatus) :
    List (Bool × AnEventId) → NotifyState → NotifyState
  | [], st => st
  | (b, e) :: rest, st => notifySeq oracle rest (notifyStep oracle b e st)

/-- Guard/event pairs of NotifyClause73Events, one entry per guarded block,
in the order the blocks appear in the source (lines 96-188). -/
def clause73EventBits (ip : AnIp) : List (Bool × AnEventId) :=
  [ (ip.an73AbilityDetect, AnEventId.abilityDetectInd),
    (ip.an73AcknowledgeDetect, AnEventId.ackDetectInd),
    (ip.an73CompleteAcknowledge, AnEventId.completeAckInd),
    (ip.an73NextPageWait, AnEventId.nextPageWaitInd),
    (ip.an73AnGoodCheck, AnEventId.goodCheckInd),
    (ip.an73AnGood, AnEventId.goodInd),
    (ip.an73TransmitDisable, AnEventId.transmitDisableInd) ]

/-- Guard/event pairs of NotifyClause37Events, one entry per guarded block,
in source order (lines 227-336).  Note that the An37NextPageWait block
sends FM10000_AN_EVENT_GOOD_CHECK_IND (line 299). -/
def clause37EventBits (ip : AnIp) : List (Bool × AnEventId) :=
  [ (ip.an37AnEnable, AnEventId.enableInd),
    (ip.an37AnRestart, AnEventId.restartInd),
    (ip.an37AnDisableLinkOk, AnEventId.disableLinkOkInd),
    (ip.an37AbilityDetect, AnEventId.abilityDetectInd),
    (ip.an37CompleteAcknowledge, AnEventId.completeAckInd),
    (ip.an37NextPageWait, AnEventId.goodCheckInd),
    (ip.an37IdleDetect, AnEventId.idleDetectInd),
    (ip.an37LinkOk, AnEventId.linkOkInd) ]

/-- NotifyClause73Events (lines 83-193): returns the final status and the
trace of events delivered to the Clause 73 AN state machine. -/
def notifyClause73Events (oracle : Nat → FmStatus) (ip : AnIp) :
    FmStatus × List AnEventId :=
  let st := notifySeq oracle (clause73EventBits ip) (FmStatus.ok, [], 0)
  (st.1, st.2.1)

/-- NotifyClause37Events (lines 214-341): returns the final status and the
trace of events delivered to the Clause 37 AN state machine. -/
def notifyClause37Events (oracle : Nat → FmStatus) (ip : AnIp) :
    FmStatus × List AnEventId :=
  let st := notifySeq oracle (clause37EventBits ip) (FmStatus.ok, [], 0)
  (st.1, st.2.1)

/-- Claim-side selection: the events of the pending bits, kept in the given
order. -/
def selectEvents (ps : List (Bool × AnEventId)) : List AnEventId :=
  ps.filterMap fun p => if p.1 then some p.2 else none

/-- Claim-side delivery semantics: deliver the listed events one at a time
(the n-th delivery getting status oracle n) and stop right after the first
delivery that does not return OK.  Returns the final status and the events
actually delivered. -/
def deliverChain (oracle : Nat → FmStatus) :
    List AnEventId → Nat → FmStatus × List AnEventId
  | [], _ => (FmStatus.ok, [])
  | e :: rest, n =>
    if oracle n = FmStatus.ok then
      let r := deliverChain oracle rest (n + 1)
      (r.1, e :: r.2)
    else (oracle n, [e])

theorem notifySeq_of_ne_ok (oracle : Nat → FmStatus)
    (ps : List (Bool × AnEventId)) (s : FmStatus) (tr : List AnEventId) (n : Nat)
    (h : s ≠ FmStatus.ok) :
    notifySeq oracle ps (s, tr, n) = (s, tr, n) := by
  induction ps with
  | nil => rfl
  | cons p rest ih =>
      obtain ⟨b, e⟩ := p
      simp [notifySeq, notifyStep, h, ih]

theorem notifySeq_eq_deliverChain (oracle : Nat → FmStatus)
    (ps : List (Bool × AnEventId)) :
    ∀ (tr : List AnEventId) (n : Nat),
      notifySeq oracle ps (FmStatus.ok, tr, n) =
        ((deliverChain oracle (selectEvents ps) n).1,
         tr ++ (deliverChain oracle (selectEvents ps) n).2,
         n + (deliverChain oracle (selectEvents ps) n).2.length) := by
  induction ps with
  | nil => intro tr n; simp [notifySeq, selectEvents, deliverChain]
  | cons p rest ih =>
      intro tr n
      obtain ⟨b, e⟩ := p
      by_cases hb : b
      · by_cases hok : oracle n = FmStatus.ok
        · simp [notifySeq, notifyStep, hb, hok, selectEvents, deliverChain, ih]
          omega
        · simp [notifySeq, notifyStep, hb, hok, selectEvents, deliverChain,
            notifySeq_of_ne_ok oracle rest _ _ _ hok]
      · simp [notifySeq, notifyStep, hb, selectEvents, ih]

/-- State-machine types the AN extension of a port can be bound to:
FM_SMTYPE_UNSPECIFIED, FM10000_CLAUSE73_AN_STATE_MACHINE,
FM10000_CLAUSE37_AN_STATE_MACHINE. -/
inductive FmSmType where
  | unspecified
  | clause73
  | clause37
deriving DecidableEq

/-- Inputs of fm10000AnEventHandler that come from outside the two source
files: the status of fm10000MapEplLaneToSerdes, whether a lane extension
exists for the serdes, whether that lane is mapped to a parent port, the
AN state-machine type the port is bound to, and the status returned by
the MaskUINT32 member of switchPtr. -/
structure AnEventHandlerEnv where
  mapEplLaneStatus : FmStatus
  laneExists : Bool
  portExists : Bool
  anSmType : FmSmType
  maskStatus : FmStatus
deriving DecidableEq

/-- Embedding of fm10000AnEventHandler (lines 1102-1196).  Mirrors the C
single-exit structure: every path, including the FM_LOG_ABORT_ON_ERR jumps,
falls through the ABORT label where MaskUINT32(sw, FM10000_AN_IM(epl,lane),
anIp, FALSE) re-arms exactly the consumed bits; the third component records
the mask passed to that call.  The returned status is the MaskUINT32 status
because the C code overwrites status with it at ABORT. -/
def fm10000AnEventHandler (env : AnEventHandlerEnv) (oracle : Nat → FmStatus)
    (anIp : AnIp) : FmStatus × List AnEventId × Option AnIp :=
  let dispatched : List AnEventId :=
    if env.mapEplLaneStatus ≠ FmStatus.ok then []
    else if env.laneExists then
      if env.portExists then
        match env.anSmType with
        | FmSmType.clause73 => (notifyClause73Events oracle anIp).2
        | FmSmType.clause37 => (notifyClause37Events oracle anIp).2
        | FmSmType.unspecified => []
      else []
    else []
  (env.maskStatus, dispatched, some anIp)

/-
AN restart on new configuration (fm10000_api_an.c,
fm10000IsPortAutonegReady lines 437-496, fm10000AnSendConfigEvent lines
785-817, fm10000AnRestartOnNewConfig lines 848-930).
-/

/-- Ethernet interface modes the AN code compares against. -/
inductive FmEthMode where
  | an73
  | base1000X
  | sgmiiMode
  | disabled
  | otherEth (code : Nat)
deriving DecidableEq

/-- Autonegotiation modes (FM_PORT_AUTONEG_XXX). -/
inductive FmAnMode where
  | clause73
  | clause37
  | sgmii
  | anNone
deriving DecidableEq

/-- Port types the readiness check distinguishes. -/
inductive FmPortType where
  | physical
  | cpu
  | otherPort
deriving DecidableEq

/-- Serdes ring of the port extension. -/
inductive SerdesRing where
  | epl
  | pcie
deriving DecidableEq

/-- AN interrupt-mask templates (FM10000_AN73_INT_MASK and
FM10000_AN37_INT_MASK live in a header outside the snapshot, so the mask is
kept symbolic). -/
inductive AnIntMask where
  | an73IntMask
  | an37IntMask
  | otherMask (v : Nat)
deriving DecidableEq

/-- Config event identifiers (FM10000_PORT_EVENT_AN_DISABLE_REQ,
FM10000_PORT_EVENT_AN_CONFIG_REQ). -/
inductive AnConfigEventId where
  | anDisableReq
  | anConfigReq
deriving DecidableEq

/-- AN state-machine start states (only FM10000_AN_STATE_DISABLED is used
by the embedded code). -/
inductive AnSmState where
  | disabledState
deriving DecidableEq

/-- Observable actions of fm10000AnRestartOnNewConfig on the state-machine
framework, in the order they are performed. -/
inductive RestartAction where
  | sendConfigEvent (id : AnConfigEventId) (mode : FmAnMode)
      (basepage : Nat) (nextPages : List Nat)
  | stopStateMachine
  | startStateMachine (newType : FmSmType) (startState : AnSmState)
deriving DecidableEq

/-- Per-port state read and written by fm10000AnRestartOnNewConfig: the
fields of fm_port / fm10000_port / fm_portAttr it touches. -/
structure AnPort where
  portType : FmPortType
  portNumber : Nat
  ring : SerdesRing
  anSmType : FmSmType
  anInterruptMask : AnIntMask
  autoNegMode : FmAnMode
  autoNegBasePage : Nat
  autoNegNextPages : List Nat
deriving DecidableEq

/-- Embedding of fm10000IsPortAutonegReady (lines 437-496), for non-null
output pointers.  Returns (status, ready, smType). -/
def fm10000IsPortAutonegReady (p : AnPort) (ethMode : FmEthMode)
    (anMode : FmAnMode) : FmStatus × Bool × FmSmType :=
  if (p.portType = FmPortType.physical ∨
      (p.portType = FmPortType.cpu ∧ p.portNumber ≠ 0)) ∧
     p.ring = SerdesRing.epl then
    let smType := p.anSmType
    let rs : Bool × FmSmType :=
      if anMode = FmAnMode.clause73 then
        (decide (ethMode = FmEthMode.an73), FmSmType.clause73)
      else (false, smType)
    let rs : Bool × FmSmType :=
      if anMode = FmAnMode.clause37 ∨ anMode = FmAnMode.sgmii then
        (decide (ethMode = FmEthMode.base1000X ∨ ethMode = FmEthMode.sgmiiMode),
         FmSmType.clause37)
      else rs
    (FmStatus.ok, rs.1, rs.2)
  else
    (FmStatus.errInvalidPort, false, FmSmType.unspecified)

/-- Embedding of fm10000AnRestartOnNewConfig (lines 848-930).  The
state-machine framework calls (fm10000AnSendConfigEvent via
fmNotifyStateMachineEvent, fmStopStateMachine, fmStartStateMachine) are
outside the snapshot and are recorded in the action trace, with their
statuses modelled as OK.  Returns (status, updated port, action trace). -/
def fm10000AnRestartOnNewConfig (p : AnPort) (ethMode : FmEthMode)
    (anMode : FmAnMode) (basepage : Nat) (nextPages : List Nat) :
    FmStatus × AnPort × List RestartAction :=
  let r := fm10000IsPortAutonegReady p ethMode anMode
  let status := r.1
  let anReady := r.2.1
  let newAnSmType := r.2.2
  if status = FmStatus.ok ∧ anReady = true then
    let pa : AnPort × List RestartAction :=
      if newAnSmType ≠ p.anSmType then
        let acts : List RestartAction :=
          if p.anSmType ≠ FmSmType.unspecified then
            [ RestartAction.sendConfigEvent AnConfigEventId.anDisableReq
                p.autoNegMode p.autoNegBasePage p.autoNegNextPages,
              RestartAction.stopStateMachine ]
          else []
        ({ p with anSmType := newAnSmType },
         acts ++ [RestartAction.startStateMachine newAnSmType
                    AnSmState.disabledState])
      else (p, [])
    let p1 := pa.1
    let p2 :=
      if anMode = FmAnMode.clause73 then
        { p1 with anInterruptMask := AnIntMask.an73IntMask }
      else if anMode = FmAnMode.clause37 ∨ anMode = FmAnMode.sgmii then
        { p1 with anInterruptMask := AnIntMask.an37IntMask }
      else p1
    (FmStatus.ok, p2,
     pa.2 ++ [RestartAction.sendConfigEvent AnConfigEventId.anConfigReq
                anMode basepage nextPages])
  else
    (status, p, [])

/-
Clause 73 base-page validation (fm10000_api_an.c, fm10000AnValidateBasePage
lines 958-1082).

Modelled from the spec: the FM10000_AN_73_BASE_PAGE_TX register layout and
the FM10000_AN73_ABILITY_XXX constants live in headers outside the
snapshot.  The spec names the IEEE 802.3 Clause 73 base-page format, whose
technology-ability field A occupies bits 21..45 of the page, and lists the
supported abilities as 1000BASE-KX, 10GBASE-KR, 25GBASE-KR, 25GBASE-CR,
40GBASE-KR4, 40GBASE-CR4, 100GBASE-KR4, 100GBASE-CR4 with every other bit
unsupported.  The ability bits are placed per IEEE (KX = A0, KR = A2,
KR4 = A3, CR4 = A4, 100G-KR4 = A7, 100G-CR4 = A8, 25G = A9/A10).  The
25GBASE_KR constant is modelled as the two-bit 25G mask, matching the
single capability check of the source, whose log message names 25G-CR/KR jointly,
and the statement of the spec that every remaining bit is cross-checked.
-/

/-- Low bit of the A field of FM10000_AN_73_BASE_PAGE_TX. -/
def FM10000_AN_73_BASE_PAGE_TX_l_A : Nat := 21

/-- Width of the A field of FM10000_AN_73_BASE_PAGE_TX. -/
def FM10000_AN_73_BASE_PAGE_TX_s_A : Nat := 25

def FM10000_AN73_ABILITY_1000BASE_KX : Nat := 0x001

def FM10000_AN73_ABILITY_10GBASE_KR : Nat := 0x004

def FM10000_AN73_ABILITY_40GBASE_KR4 : Nat := 0x008

def FM10000_AN73_ABILITY_40GBASE_CR4 : Nat := 0x010

def FM10000_AN73_ABILITY_100GBASE_KR4 : Nat := 0x080

def FM10000_AN73_ABILITY_100GBASE_CR4 : Nat := 0x100

def FM10000_AN73_ABILITY_25GBASE_KR : Nat := 0x600

def FM10000_AN73_ABILITY_25GBASE_CR : Nat := 0x400

def FM10000_AN73_ABILITIES_40G : Nat :=
  FM10000_AN73_ABILITY_40GBASE_KR4 ||| FM10000_AN73_ABILITY_40GBASE_CR4

def FM10000_AN73_ABILITIES_100G : Nat :=
  FM10000_AN73_ABILITY_100GBASE_KR4 ||| FM10000_AN73_ABILITY_100GBASE_CR4

def FM10000_AN73_SUPPORTED_ABILITIES : Nat :=
  FM10000_AN73_ABILITY_1000BASE_KX |||
  FM10000_AN73_ABILITY_10GBASE_KR |||
  FM10000_AN73_ABILITY_25GBASE_KR |||
  FM10000_AN73_ABILITY_25GBASE_CR |||
  FM10000_AN73_ABILITIES_40G |||
  FM10000_AN73_ABILITIES_100G

/-- Complement of the supported mask within the 25-bit ability field. -/
def FM10000_AN73_UNSUPPORTED_ABILITIES : Nat :=
  0x1FFFFFF ^^^ FM10000_AN73_SUPPORTED_ABILITIES

/-- Port capability bits (FM_PORT_CAPABILITY_SPEED_XXX) read by the
validator, one boolean per speed. -/
structure PortCapabilities where
  speed1G : Bool
  speed10G : Bool
  speed25G : Bool
  speed40G : Bool
  speed100G : Bool
deriving DecidableEq

/-- Shorthand for the extraction of the A field the source performs with
FM_GET_FIELD64(basepage, FM10000_AN_73_BASE_PAGE_TX, A). -/
def an73BasePageAbility (basepage : Nat) : Nat :=
  getField64 basepage FM10000_AN_73_BASE_PAGE_TX_l_A FM10000_AN_73_BASE_PAGE_TX_s_A

/-- Embedding of fm10000AnValidateBasePage (lines 958-1082).  The inputs
are the capabilities of the port, the AN mode, the base page and the initial
contents of the caller-allocated modBasePage; the result is the returned
status paired with the final contents of modBasePage (the source writes
only the A field of it, and only on the paths that reach FM_SET_FIELD64).
The complement in the C expression (ability and not UNSUPPORTED) is taken
in the 32-bit fm_uint word. -/
def fm10000AnValidateBasePage (caps : PortCapabilities) (mode : FmAnMode)
    (basepage modBasePage0 : Nat) : FmStatus × Nat :=
  match mode with
  | FmAnMode.clause73 =>
    let ability := an73BasePageAbility basepage
    if ability ≠ 0 then
      let ability := ability &&& (0xFFFFFFFF ^^^ FM10000_AN73_UNSUPPORTED_ABILITIES)
      if ability = 0 then
        (FmStatus.errUnsupported, modBasePage0)
      else if ability &&& FM10000_AN73_ABILITY_1000BASE_KX ≠ 0 ∧ caps.speed1G = false then
        (FmStatus.errUnsupported, modBasePage0)
      else if ability &&& FM10000_AN73_ABILITY_10GBASE_KR ≠ 0 ∧ caps.speed10G = false then
        (FmStatus.errUnsupported, modBasePage0)
      else if ability &&& FM10000_AN73_ABILITY_25GBASE_KR ≠ 0 ∧ caps.speed25G = false then
        (FmStatus.errUnsupported, modBasePage0)
      else if ability &&& FM10000_AN73_ABILITY_40GBASE_KR4 ≠ 0 ∧ caps.speed40G = false then
        (FmStatus.errUnsupported, modBasePage0)
      else if ability &&& FM10000_AN73_ABILITY_40GBASE_CR4 ≠ 0 ∧ caps.speed40G = false then
        (FmStatus.errUnsupported, modBasePage0)
      else if ability &&& FM10000_AN73_ABILITY_100GBASE_KR4 ≠ 0 ∧ caps.speed100G = false then
        (FmStatus.errUnsupported, modBasePage0)
      else if ability &&& FM10000_AN73_ABILITY_100GBASE_CR4 ≠ 0 ∧ caps.speed100G = false then
        (FmStatus.errUnsupported, modBasePage0)
      else
        (FmStatus.ok,
         setField64 modBasePage0 FM10000_AN_73_BASE_PAGE_TX_l_A
           FM10000_AN_73_BASE_PAGE_TX_s_A ability)
    else
      (FmStatus.ok,
       setField64 modBasePage0 FM10000_AN_73_BASE_PAGE_TX_l_A
         FM10000_AN_73_BASE_PAGE_TX_s_A ability)
  | _ =>
    (FmStatus.ok, modBasePage0)

/-
Next-page scan and max-speed picker (fm10000_api_an.c,
fm10000AnGetNextPageExtTechAbilityIndex lines 1624-1745,
IsAn25GConfiguredInNextPage lines 363-397,
fm10000AnGetMaxSpeedAbilityAndMode lines 1491-1592).

Modelled from the spec: the FM10000_AN_73_NEXT_PAGE_RX layout and the
message codes live in headers outside the snapshot.  Per IEEE Annex 28C,
which the spec names, the message/unformatted code field MU is bits 0..10
of a next page and the OUI-tagged-message code is 5.
-/

def FM10000_AN_NEXTPAGE_OUI_MSG_CODE : Nat := 5

/-- MU field (bits 0..10) of a next page. -/
def nextPageMU (page : Nat) : Nat := getField64 page 0 11

/-- OUI reconstruction of lines 1687-1699: bits 9..10 of the unformatted
page become OUI bits 0..1, bits 32..42 of the message page become OUI bits
2..12, bits 16..26 of the message page become OUI bits 13..23 (each C loop
ORs the bits of one contiguous slice, written here as the slice itself). -/
def nextPageRxOui (pageA pageB : Nat) : Nat :=
  getField64 pageB 9 2 ||| getField64 pageA 32 11 <<< 2 ||| getField64 pageA 16 11 <<< 13

/-- Loop of fm10000AnGetNextPageExtTechAbilityIndex (lines 1651-1741).
rest is the suffix of the page array from index pageNum on, and len is
numPages.  The accumulator holds (err, extTechAbIndex), the latter as an
Option because the C initializes the index to -1.  The C reads
nextPages[pageNum+1] whenever the page at pageNum carries the OUI message
code; the guard pageNum >= numPages it sits behind is kept from the source
although it can never fire inside the loop.  A read past the end of the
array is represented by the result none (an Option-returning lookup that
fails). -/
def extTechAbilityScan (oui len : Nat) :
    List Nat → Nat → FmStatus × Option Nat → Option (FmStatus × Option Nat)
  | [], _, acc => some acc
  | pageA :: rest, pageNum, acc =>
    if nextPageMU pageA = FM10000_AN_NEXTPAGE_OUI_MSG_CODE then
      if pageNum ≥ len then
        extTechAbilityScan oui len rest (pageNum + 1) acc
      else
        match rest.head? with
        | none => none
        | some pageB =>
          let val := getField64 pageB 0 9
          if val = 0x3 then
            if nextPageRxOui pageA pageB = oui then
              extTechAbilityScan oui len rest (pageNum + 1)
                (FmStatus.ok, some (pageNum + 1))
            else
              extTechAbilityScan oui len rest (pageNum + 1) acc
          else
            extTechAbilityScan oui len rest (pageNum + 1) acc
    else
      extTechAbilityScan oui len rest (pageNum + 1) acc

/-- Embedding of fm10000AnGetNextPageExtTechAbilityIndex (lines 1624-1745)
for a non-null output pointer.  oui is the per-port autoNeg25GNxtPgOui
attribute.  Returns none when the loop reads past the end of the page
array, otherwise the status (FM_OK or FM_ERR_NOT_FOUND) and the found
index. -/
def fm10000AnGetNextPageExtTechAbilityIndex (oui : Nat) (nextPages : List Nat) :
    Option (FmStatus × Option Nat) :=
  extTechAbilityScan oui nextPages.length nextPages 0 (FmStatus.errNotFound, none)

/-- Embedding of IsAn25GConfiguredInNextPage (lines 363-397).  Returns
none when the underlying scan (or the follow-up page access) goes out of
bounds, otherwise the status and the is25GConfigured flag. -/
def isAn25GConfiguredInNextPage (oui : Nat) (nextPages : List Nat) :
    Option (FmStatus × Bool) :=
  match fm10000AnGetNextPageExtTechAbilityIndex oui nextPages with
  | none => none
  | some (FmStatus.ok, some idx) =>
      match nextPages.get? idx with
      | none => none
      | some page =>
          some (FmStatus.ok, getBit64 page 21 ≠ 0 ∨ getBit64 page 20 ≠ 0)
  | some (FmStatus.ok, none) => none
  | some (FmStatus.errNotFound, _) => some (FmStatus.ok, false)
  | some (st, _) => some (st, false)

/-- Scheduler lane modes (FM_SCHED_PORT_MODE_XXX). -/
inductive SchedPortMode where
  | modeNone
  | single
  | quad
deriving DecidableEq

/-- Embedding of fm10000AnGetMaxSpeedAbilityAndMode (lines 1491-1592).
is40GCapable and is100GCapable are the outputs of the external
fm10000GetMultiLaneCapabilities (modelled as succeeding).  oui is the
per-port autoNeg25GNxtPgOui attribute.  Returns none when the next-page scan
goes out of bounds, otherwise (status, maxSpeed, laneMode). -/
def fm10000AnGetMaxSpeedAbilityAndMode (is40GCapable is100GCapable : Bool)
    (oui : Nat) (mode : FmAnMode) (basepage : Nat) (nextPages : List Nat) :
    Option (FmStatus × Nat × SchedPortMode) :=
  match mode with
  | FmAnMode.clause73 =>
    let ability :=
      if basepage = 0 then
        let a := FM10000_AN73_SUPPORTED_ABILITIES
        let a :=
          if is40GCapable then a
          else a &&& (0xFFFFFFFF ^^^ FM10000_AN73_ABILITIES_40G)
        let a :=
          if is100GCapable then a
          else a &&& (0xFFFFFFFF ^^^ FM10000_AN73_ABILITIES_100G)
        a
      else an73BasePageAbility basepage
    match isAn25GConfiguredInNextPage oui nextPages with
    | none => none
    | some (st, is25GConfigInNextPage) =>
      if st ≠ FmStatus.ok then some (st, 0, SchedPortMode.modeNone)
      else if ability &&& FM10000_AN73_ABILITIES_100G ≠ 0 then
        some (FmStatus.ok, 100000, SchedPortMode.quad)
      else if ability &&& FM10000_AN73_ABILITIES_40G ≠ 0 then
        some (FmStatus.ok, 40000, SchedPortMode.quad)
      else if ability &&& (FM10000_AN73_ABILITY_25GBASE_KR |||
                           FM10000_AN73_ABILITY_25GBASE_CR) ≠ 0 ∨
              is25GConfigInNextPage = true then
        some (FmStatus.ok, 25000, SchedPortMode.single)
      else if ability &&& FM10000_AN73_ABILITY_10GBASE_KR ≠ 0 then
        some (FmStatus.ok, 10000, SchedPortMode.single)
      else if ability &&& FM10000_AN73_ABILITY_1000BASE_KX ≠ 0 then
        some (FmStatus.ok, 2500, SchedPortMode.single)
      else some (FmStatus.ok, 0, SchedPortMode.modeNone)
  | FmAnMode.clause37 => some (FmStatus.ok, 1000, SchedPortMode.single)
  | FmAnMode.sgmii => some (FmStatus.ok, 1000, SchedPortMode.single)
  | FmAnMode.anNone => some (FmStatus.errUnsupported, 0, SchedPortMode.modeNone)

/-
AN timer scaler (fm10000_api_an.c, fm10000AnGetTimeScale lines 729-753).
-/

/-- Loop of fm10000AnGetTimeScale.  iters counts the remaining passes of
the C for-loop (6 in total, for timeScale from 2 to 7); ts is the running
divisor (1, then multiplied by 10 each pass) and lastTimeout the last value
stored through the timeout pointer.  Returns (timeScale, timeout,
returned effective value); the effective value mirrors the C expressions
ts/10*timeout, written after ts has been multiplied by 10 inside a pass. -/
def fm10000AnGetTimeScaleLoop (timeoutUsec timeoutMax : Nat) :
    Nat → Nat → Nat → Nat → Nat × Nat × Nat
  | 0, timeScale, ts, lastTimeout =>
      (timeScale, lastTimeout, ts / 10 * lastTimeout)
  | iters + 1, timeScale, ts, _lastTimeout =>
      let timeout := timeoutUsec / ts
      if timeout < timeoutMax then (timeScale, timeout, ts * 10 / 10 * timeout)
      else
        fm10000AnGetTimeScaleLoop timeoutUsec timeoutMax iters
          (timeScale + 1) (ts * 10) timeout

/-- Embedding of fm10000AnGetTimeScale (lines 729-753): (timeScale,
timeout, effective configured value). -/
def fm10000AnGetTimeScale (timeoutUsec timeoutMax : Nat) : Nat × Nat × Nat :=
  fm10000AnGetTimeScaleLoop timeoutUsec timeoutMax 6 2 1 0

/-
Transceiver update-state sweep (platform_mgmt.c, XcvrUpdateState per-port
body, lines 638-737; the claims bear on the record updates of lines
655-697).

Modelled from the spec: the FM_PLAT_XCVR_XXX bit positions and the EEPROM
cache size live in platform headers outside the snapshot; the spec gives
the bit set as PRESENT, ENABLE, RXLOS, TXFAULT, INTR and the cache as one
SFF-8472 page dump (256 bytes).
-/

def FM_PLAT_XCVR_PRESENT : Nat := 0x01

def FM_PLAT_XCVR_ENABLE : Nat := 0x02

def FM_PLAT_XCVR_RXLOS : Nat := 0x04

def FM_PLAT_XCVR_TXFAULT : Nat := 0x08

def FM_PLAT_XCVR_INTR : Nat := 0x10

def XCVR_EEPROM_CACHE_SIZE : Nat := 256

/-- Transceiver types; the update-state path only ever writes
FM_PLATFORM_XCVR_TYPE_NOT_PRESENT, every other parsed type is kept
symbolic. -/
inductive XcvrType where
  | notPresent
  | unknownXcvr
  | otherXcvr (code : Nat)
deriving DecidableEq

/-- Per-port transceiver record (fm_platformXcvrInfo), restricted to the
fields the update-state path touches. -/
structure XcvrInfo where
  modState : Nat
  type : XcvrType
  cableLength : Nat
  present : Bool
  eepromBaseValid : Bool
  eepromExtValid : Bool
  eepromReadRetries : Nat
  configRetries : Nat
  anEnabled : Bool
  ethMode : FmEthMode
  eeprom : List Nat
deriving DecidableEq

def defaultXcvrInfo : XcvrInfo :=
  { modState := 0, type := XcvrType.unknownXcvr, cableLength := 0,
    present := false, eepromBaseValid := false, eepromExtValid := false,
    eepromReadRetries := 0, configRetries := 0, anEnabled := false,
    ethMode := FmEthMode.disabled,
    eeprom := List.replicate XCVR_EEPROM_CACHE_SIZE 0 }

/-- Update of the record at index i of the per-switch xcvrInfo array;
indices past the end leave the array unchanged. -/
def xcvrInfoUpd (arr : List XcvrInfo) (i : Nat) (f : XcvrInfo → XcvrInfo) :
    List XcvrInfo :=
  match arr.get? i with
  | some x => arr.set i (f x)
  | none => arr

/-- Embedding of the record updates one pass of the XcvrUpdateState
per-port loop performs (lines 655-737) for the port at index portIdx,
given the hardware answers xcvrStateValid and xcvrState for that port.
Returns the updated array, the notify flag, and whether the
EEPROM-read/SerDes/XCVR-config chain of lines 699-710 (external I/O from
the point of view of this loop) was entered.

Two source details are kept as written: the PRESENT-change EEPROM wipe
addresses xcvrInfo->eeprom, i.e. the record at index 0 of the array rather
than the one at portIdx (line 682), and the ENABLE-change writes address
xcvrInfo->configRetries and xcvrInfo->anEnabled, again index 0 (lines
695-696).  The PRESENT-change branch does not touch configRetries. -/
def xcvrUpdatePortState (arr : List XcvrInfo) (portIdx : Nat)
    (xcvrStateValid xcvrState : Nat) : List XcvrInfo × Bool × Bool :=
  let oldState := (arr.getD portIdx defaultXcvrInfo).modState
  let present := xcvrState &&& FM_PLAT_XCVR_PRESENT ≠ 0
  if oldState ≠ xcvrState then
    let arr := xcvrInfoUpd arr portIdx fun r => { r with modState := xcvrState }
    let presentChanged :=
      xcvrStateValid &&& FM_PLAT_XCVR_PRESENT ≠ 0 ∧
      oldState &&& FM_PLAT_XCVR_PRESENT ≠ xcvrState &&& FM_PLAT_XCVR_PRESENT
    let arr :=
      if presentChanged then
        let arr := xcvrInfoUpd arr portIdx fun r =>
          { r with type := XcvrType.notPresent, cableLength := 0,
                   present := present, eepromBaseValid := false,
                   eepromExtValid := false, eepromReadRetries := 0 }
        xcvrInfoUpd arr 0 fun r =>
          { r with eeprom := List.replicate XCVR_EEPROM_CACHE_SIZE 0xFF }
      else arr
    let enableChanged :=
      xcvrStateValid &&& FM_PLAT_XCVR_ENABLE ≠ 0 ∧
      oldState &&& FM_PLAT_XCVR_ENABLE ≠ xcvrState &&& FM_PLAT_XCVR_ENABLE
    let arr :=
      if enableChanged then
        xcvrInfoUpd arr 0 fun r => { r with configRetries := 0, anEnabled := false }
      else arr
    let notify := presentChanged ∨ enableChanged
    let readChainEntered :=
      notify ∧ present ∧ xcvrState &&& FM_PLAT_XCVR_ENABLE ≠ 0
    let rxlosChanged :=
      xcvrStateValid &&& FM_PLAT_XCVR_RXLOS ≠ 0 ∧
      oldState &&& FM_PLAT_XCVR_RXLOS ≠ xcvrState &&& FM_PLAT_XCVR_RXLOS
    let txfaultChanged :=
      xcvrStateValid &&& FM_PLAT_XCVR_TXFAULT ≠ 0 ∧
      oldState &&& FM_PLAT_XCVR_TXFAULT ≠ xcvrState &&& FM_PLAT_XCVR_TXFAULT
    let notify := notify ∨ rxlosChanged ∨ txfaultChanged
    (arr, notify, readChainEntered)
  else
    (arr, false, false)

/-
Claim theorems.
-/

/-- An AnIp value with no bit pending, used as the base of the concrete
masks appearing in witnesses and counterexamples. -/
def anIpAllClear : AnIp :=
  { an73AbilityDetect := false, an73AcknowledgeDetect := false,
    an73CompleteAcknowledge := false, an73NextPageWait := false,
    an73AnGoodCheck := false, an73AnGood := false,
    an73TransmitDisable := false, an73MrPageRx := false,
    an73ReceiveIdle := false, an37AnEnable := false, an37AnRestart := false,
    an37AnDisableLinkOk := false, an37AbilityDetect := false,
    an37AcknowledgeDetect := false, an37CompleteAcknowledge := false,
    an37NextPageWait := false, an37IdleDetect := false, an37LinkOk := false,
    an37MrPageRx := false }

/-- Claim C3: for every Clause 73 pending mask and every sequence of delivery
statuses, NotifyClause73Events delivers exactly the events of the pending
bits among AbilityDetect, AcknowledgeDetect, CompleteAcknowledge,
NextPageWait, AnGoodCheck, AnGood, TransmitDisable, in that order, each
event the one corresponding to its bit, stopping right after the first
delivery whose status is not OK. -/
theorem notifyClause73Events_spec (oracle : Nat → FmStatus) (ip : AnIp) :
    notifyClause73Events oracle ip =
      deliverChain oracle (selectEvents (clause73EventBits ip)) 0 := by
  have h := notifySeq_eq_deliverChain oracle (clause73EventBits ip) [] 0
  simp [notifyClause73Events, h]

/-- Claim C4 (amended): for every Clause 37 pending mask and every sequence of
delivery statuses, NotifyClause37Events scans AnEnable, AnRestart,
DisableLinkOk, AbilityDetect, CompleteAcknowledge, NextPageWait,
IdleDetect, LinkOk in that order and delivers the event of each pending
bit, the NextPageWait bit being delivered as the good-check event (not a
next-page-wait event), aborting on the first non-OK status. -/
theorem notifyClause37Events_spec (oracle : Nat → FmStatus) (ip : AnIp) :
    notifyClause37Events oracle ip =
      deliverChain oracle (selectEvents (clause37EventBits ip)) 0 := by
  have h := notifySeq_eq_deliverChain oracle (clause37EventBits ip) [] 0
  simp [notifyClause37Events, h]

/-- Claim C4 counterexample: with only the NextPageWait bit pending and all
deliveries succeeding, the single delivered event is the good-check event,
not the next-page-wait event the claim names. -/
theorem notifyClause37Events_nextPageWait_cex :
    ¬ ((notifyClause37Events (fun _ => FmStatus.ok)
          { anIpAllClear with an37NextPageWait := true }).2
        = [AnEventId.nextPageWaitInd]) := by
  decide

/-- Claim C8: on every path of fm10000AnEventHandler, including a failing
EPL-lane-to-serdes resolution, a lane with no parent port, an aborted
event chain and a fully successful chain, the consumed pending bits are
re-armed: the mask handed to MaskUINT32 is exactly the anIp the handler
was invoked with. -/
theorem fm10000AnEventHandler_rearm (env : AnEventHandlerEnv)
    (oracle : Nat → FmStatus) (anIp : AnIp) :
    (fm10000AnEventHandler env oracle anIp).2.2 = some anIp := rfl

/-- Claim C2 (amended): on a ready port whose requested AN mode maps to a
state-machine type different from the bound one, fm10000AnRestartOnNewConfig
sends exactly one AN_DISABLE_REQ carrying the current (old) configuration
and stops the old state machine when the port is bound to a real state
machine (when it is bound to none, no disable is sent and nothing is
stopped), then starts the new state machine in state DISABLED, sets the AN
interrupt mask to the C73 template for CLAUSE_73 and to the C37 template
for CLAUSE_37 or SGMII, and sends exactly one AN_CONFIG_REQ carrying the
new configuration; on a port that is not ready it returns without touching
any AN state. -/
theorem fm10000AnRestartOnNewConfig_spec (p : AnPort) (ethMode : FmEthMode)
    (anMode : FmAnMode) (basepage : Nat) (nextPages : List Nat) :
    (¬ ((fm10000IsPortAutonegReady p ethMode anMode).1 = FmStatus.ok ∧
        (fm10000IsPortAutonegReady p ethMode anMode).2.1 = true) →
      fm10000AnRestartOnNewConfig p ethMode anMode basepage nextPages =
        ((fm10000IsPortAutonegReady p ethMode anMode).1, p, [])) ∧
    ((fm10000IsPortAutonegReady p ethMode anMode).1 = FmStatus.ok →
     (fm10000IsPortAutonegReady p ethMode anMode).2.1 = true →
     (fm10000IsPortAutonegReady p ethMode anMode).2.2 ≠ p.anSmType →
      (fm10000AnRestartOnNewConfig p ethMode anMode basepage nextPages).2.1.anSmType
        = (fm10000IsPortAutonegReady p ethMode anMode).2.2 ∧
      (anMode = FmAnMode.clause73 →
        (fm10000AnRestartOnNewConfig p ethMode anMode basepage nextPages).2.1.anInterruptMask
          = AnIntMask.an73IntMask) ∧
      ((anMode = FmAnMode.clause37 ∨ anMode = FmAnMode.sgmii) →
        (fm10000AnRestartOnNewConfig p ethMode anMode basepage nextPages).2.1.anInterruptMask
          = AnIntMask.an37IntMask) ∧
      (p.anSmType ≠ FmSmType.unspecified →
        (fm10000AnRestartOnNewConfig p ethMode anMode basepage nextPages).2.2 =
          [ RestartAction.sendConfigEvent AnConfigEventId.anDisableReq
              p.autoNegMode p.autoNegBasePage p.autoNegNextPages,
            RestartAction.stopStateMachine,
            RestartAction.startStateMachine
              (fm10000IsPortAutonegReady p ethMode anMode).2.2
              AnSmState.disabledState,
            RestartAction.sendConfigEvent AnConfigEventId.anConfigReq
              anMode basepage nextPages ]) ∧
      (p.anSmType = FmSmType.unspecified →
        (fm10000AnRestartOnNewConfig p ethMode anMode basepage nextPages).2.2 =
          [ RestartAction.startStateMachine
              (fm10000IsPortAutonegReady p ethMode anMode).2.2
              AnSmState.disabledState,
            RestartAction.sendConfigEvent AnConfigEventId.anConfigReq
              anMode basepage nextPages ])) := by
  constructor
  · intro hnr
    simp [fm10000AnRestartOnNewConfig, hnr]
  · intro h1 h2 h3
    refine ⟨?_, ?_, ?_, ?_, ?_⟩
    · simp only [fm10000AnRestartOnNewConfig, if_pos (And.intro h1 h2), if_pos h3]
      by_cases hu : p.anSmType = FmSmType.unspecified <;>
        by_cases hm : anMode = FmAnMode.clause73 <;>
        simp [hu, hm] <;>
        by_cases hm2 : anMode = FmAnMode.clause37 ∨ anMode = FmAnMode.sgmii <;>
        simp [hm2]
    · intro hm
      subst hm
      simp only [fm10000AnRestartOnNewConfig, if_pos (And.intro h1 h2), if_pos h3]
      by_cases hu : p.anSmType = FmSmType.unspecified <;> simp [hu]
    · intro hm
      have hne : anMode ≠ FmAnMode.clause73 := by
        rcases hm with hm | hm <;> (subst hm; intro hx; exact FmAnMode.noConfusion hx)
      simp only [fm10000AnRestartOnNewConfig, if_pos (And.intro h1 h2), if_pos h3]
      by_cases hu : p.anSmType = FmSmType.unspecified <;> simp [hu, hne, hm]
    · intro hu
      simp [fm10000AnRestartOnNewConfig, if_pos (And.intro h1 h2), if_pos h3, hu]
    · intro hu
      have h3' : (fm10000IsPortAutonegReady p ethMode anMode).2.2 ≠ FmSmType.unspecified :=
        hu ▸ h3
      simp [fm10000AnRestartOnNewConfig, if_pos (And.intro h1 h2), if_pos h3, hu, h3']

/-- Claim C2 counterexample: on a ready port bound to no real state machine
(anSmType unspecified) the requested Clause 73 mode differs from the bound
type, yet no AN_DISABLE_REQ event at all is sent, where the claim as
stated demands exactly one. -/
theorem fm10000AnRestartOnNewConfig_noDisable_cex :
    ¬ ((((fm10000AnRestartOnNewConfig
            { portType := FmPortType.physical, portNumber := 1,
              ring := SerdesRing.epl, anSmType := FmSmType.unspecified,
              anInterruptMask := AnIntMask.otherMask 0,
              autoNegMode := FmAnMode.anNone, autoNegBasePage := 0,
              autoNegNextPages := [] }
            FmEthMode.an73 FmAnMode.clause73 0 []).2.2).filter
          (fun a => match a with
            | RestartAction.sendConfigEvent AnConfigEventId.anDisableReq _ _ _ => true
            | _ => false)).length = 1) := by
  decide

/-- Claim C2 witness: a port bound to the Clause 37 state machine, ready for a
Clause 73 restart, goes through disable, stop, start-disabled, mask update
and config, in that order. -/
theorem fm10000AnRestartOnNewConfig_spec_witness :
    (fm10000AnRestartOnNewConfig
        { portType := FmPortType.physical, portNumber := 1,
          ring := SerdesRing.epl, anSmType := FmSmType.clause37,
          anInterruptMask := AnIntMask.an37IntMask,
          autoNegMode := FmAnMode.clause37, autoNegBasePage := 77,
          autoNegNextPages := [1, 2] }
        FmEthMode.an73 FmAnMode.clause73 99 [4]).2.2 =
      [ RestartAction.sendConfigEvent AnConfigEventId.anDisableReq
          FmAnMode.clause37 77 [1, 2],
        RestartAction.stopStateMachine,
        RestartAction.startStateMachine FmSmType.clause73
          AnSmState.disabledState,
        RestartAction.sendConfigEvent AnConfigEventId.anConfigReq
          FmAnMode.clause73 99 [4] ] ∧
    (fm10000AnRestartOnNewConfig
        { portType := FmPortType.physical, portNumber := 1,
          ring := SerdesRing.epl, anSmType := FmSmType.clause37,
          anInterruptMask := AnIntMask.an37IntMask,
          autoNegMode := FmAnMode.clause37, autoNegBasePage := 77,
          autoNegNextPages := [1, 2] }
        FmEthMode.an73 FmAnMode.clause73 99 [4]).2.1.anInterruptMask =
      AnIntMask.an73IntMask := by
  have h := fm10000AnRestartOnNewConfig_spec
    { portType := FmPortType.physical, portNumber := 1,
      ring := SerdesRing.epl, anSmType := FmSmType.clause37,
      anInterruptMask := AnIntMask.an37IntMask,
      autoNegMode := FmAnMode.clause37, autoNegBasePage := 77,
      autoNegNextPages := [1, 2] }
    FmEthMode.an73 FmAnMode.clause73 99 [4]
  have h2 := h.2 (by decide) (by decide) (by decide)
  exact ⟨h2.2.2.2.1 (by decide), h2.2.1 rfl⟩

theorem an73BasePageAbility_lt (basepage : Nat) :
    an73BasePageAbility basepage < 2 ^ 25 :=
  Nat.mod_lt _ (Nat.pos_pow_of_pos 25 (by norm_num))

/-- Masking with the 32-bit complement of the unsupported mask keeps
exactly the supported bits of a 25-bit ability field. -/
theorem an73_mask_unsupported_eq (a : Nat) (h : a < 2 ^ 25) :
    a &&& (0xFFFFFFFF ^^^ FM10000_AN73_UNSUPPORTED_ABILITIES) =
      a &&& FM10000_AN73_SUPPORTED_ABILITIES := by
  apply Nat.eq_of_testBit_eq
  intro i
  rw [Nat.testBit_land, Nat.testBit_land]
  cases h1 : a.testBit i with
  | false => simp
  | true =>
      have hi : i < 25 := by
        by_contra hge
        have hlt : a < 2 ^ i :=
          lt_of_lt_of_le h (Nat.pow_le_pow_right (by norm_num) (by omega))
        rw [Nat.testBit_lt_two_pow hlt] at h1
        exact Bool.noConfusion h1
      simp only [Bool.true_and]
      interval_cases i <;> decide

theorem an73_supported_land_unsupported (a : Nat) :
    (a &&& FM10000_AN73_SUPPORTED_ABILITIES) &&&
      FM10000_AN73_UNSUPPORTED_ABILITIES = 0 := by
  rw [Nat.land_assoc]
  have h : FM10000_AN73_SUPPORTED_ABILITIES &&&
      FM10000_AN73_UNSUPPORTED_ABILITIES = 0 := by decide
  rw [h]
  simp

theorem an73_25G_or :
    FM10000_AN73_ABILITY_25GBASE_KR ||| FM10000_AN73_ABILITY_25GBASE_CR =
      FM10000_AN73_ABILITY_25GBASE_KR := by decide

/-- Claim-side capability cross-check: some bit of the (cleaned) ability
field advertises a speed the declared capabilities of the port do not carry. -/
def AnCapViolation (ability : Nat) (caps : PortCapabilities) : Prop :=
  (ability &&& FM10000_AN73_ABILITY_1000BASE_KX ≠ 0 ∧ caps.speed1G = false) ∨
  (ability &&& FM10000_AN73_ABILITY_10GBASE_KR ≠ 0 ∧ caps.speed10G = false) ∨
  (ability &&& (FM10000_AN73_ABILITY_25GBASE_KR |||
                FM10000_AN73_ABILITY_25GBASE_CR) ≠ 0 ∧ caps.speed25G = false) ∨
  (ability &&& FM10000_AN73_ABILITY_40GBASE_KR4 ≠ 0 ∧ caps.speed40G = false) ∨
  (ability &&& FM10000_AN73_ABILITY_40GBASE_CR4 ≠ 0 ∧ caps.speed40G = false) ∨
  (ability &&& FM10000_AN73_ABILITY_100GBASE_KR4 ≠ 0 ∧ caps.speed100G = false) ∨
  (ability &&& FM10000_AN73_ABILITY_100GBASE_CR4 ≠ 0 ∧ caps.speed100G = false)

instance (ability : Nat) (caps : PortCapabilities) :
    Decidable (AnCapViolation ability caps) := by
  unfold AnCapViolation
  infer_instance

/-- Claim C5 (amended): for every Clause 73 base page whose ability field is
nonzero, fm10000AnValidateBasePage masks off the bits outside the
supported mask; if nothing remains it fails with UNSUPPORTED, if a
remaining bit advertises a speed absent from the capabilities of the port it
fails with UNSUPPORTED, and otherwise it returns OK with the cleaned
ability (free of unsupported bits) written into the returned modified base
page.  A base page whose ability field is already zero is passed through
with OK and no checks (see the C10 theorem). -/
theorem fm10000AnValidateBasePage_spec (caps : PortCapabilities)
    (basepage modBasePage0 : Nat) (h : an73BasePageAbility basepage ≠ 0) :
    ((an73BasePageAbility basepage &&& FM10000_AN73_SUPPORTED_ABILITIES) = 0 →
      fm10000AnValidateBasePage caps FmAnMode.clause73 basepage modBasePage0 =
        (FmStatus.errUnsupported, modBasePage0)) ∧
    ((an73BasePageAbility basepage &&& FM10000_AN73_SUPPORTED_ABILITIES) ≠ 0 →
     AnCapViolation
        (an73BasePageAbility basepage &&& FM10000_AN73_SUPPORTED_ABILITIES) caps →
      fm10000AnValidateBasePage caps FmAnMode.clause73 basepage modBasePage0 =
        (FmStatus.errUnsupported, modBasePage0)) ∧
    ((an73BasePageAbility basepage &&& FM10000_AN73_SUPPORTED_ABILITIES) ≠ 0 →
     ¬ AnCapViolation
        (an73BasePageAbility basepage &&& FM10000_AN73_SUPPORTED_ABILITIES) caps →
      fm10000AnValidateBasePage caps FmAnMode.clause73 basepage modBasePage0 =
        (FmStatus.ok,
         setField64 modBasePage0 FM10000_AN_73_BASE_PAGE_TX_l_A
           FM10000_AN_73_BASE_PAGE_TX_s_A
           (an73BasePageAbility basepage &&& FM10000_AN73_SUPPORTED_ABILITIES)) ∧
      an73BasePageAbility
          (fm10000AnValidateBasePage caps FmAnMode.clause73 basepage modBasePage0).2 =
        an73BasePageAbility basepage &&& FM10000_AN73_SUPPORTED_ABILITIES ∧
      (an73BasePageAbility basepage &&& FM10000_AN73_SUPPORTED_ABILITIES) &&&
        FM10000_AN73_UNSUPPORTED_ABILITIES = 0) := by
  have hlt := an73BasePageAbility_lt basepage
  have hmask := an73_mask_unsupported_eq (an73BasePageAbility basepage) hlt
  have hcl_lt : an73BasePageAbility basepage &&& FM10000_AN73_SUPPORTED_ABILITIES
      < 2 ^ 25 :=
    lt_of_le_of_lt (Nat.and_le_right) (by decide)
  simp only [fm10000AnValidateBasePage]
  rw [if_pos h, hmask]
  set cleaned := an73BasePageAbility basepage &&& FM10000_AN73_SUPPORTED_ABILITIES
    with hcleaned
  split_ifs with h0 hc1 hc2 hc3 hc4 hc5 hc6 hc7
  · exact ⟨fun _ => rfl, fun hne _ => absurd h0 hne, fun hne _ => absurd h0 hne⟩
  · exact ⟨fun hz => absurd hz h0, fun _ _ => rfl,
      fun _ hnv => absurd (Or.inl hc1) hnv⟩
  · exact ⟨fun hz => absurd hz h0, fun _ _ => rfl,
      fun _ hnv => absurd (Or.inr (Or.inl hc2)) hnv⟩
  · refine ⟨fun hz => absurd hz h0, fun _ _ => rfl, fun _ hnv => ?_⟩
    exact absurd (Or.inr (Or.inr (Or.inl (by rw [an73_25G_or]; exact hc3)))) hnv
  · exact ⟨fun hz => absurd hz h0, fun _ _ => rfl,
      fun _ hnv => absurd (Or.inr (Or.inr (Or.inr (Or.inl hc4)))) hnv⟩
  · exact ⟨fun hz => absurd hz h0, fun _ _ => rfl,
      fun _ hnv => absurd (Or.inr (Or.inr (Or.inr (Or.inr (Or.inl hc5))))) hnv⟩
  · exact ⟨fun hz => absurd hz h0, fun _ _ => rfl,
      fun _ hnv =>
        absurd (Or.inr (Or.inr (Or.inr (Or.inr (Or.inr (Or.inl hc6)))))) hnv⟩
  · exact ⟨fun hz => absurd hz h0, fun _ _ => rfl,
      fun _ hnv =>
        absurd (Or.inr (Or.inr (Or.inr (Or.inr (Or.inr (Or.inr hc7)))))) hnv⟩
  · refine ⟨fun hz => absurd hz h0, fun _ hv => ?_, fun _ _ => ⟨rfl, ?_, ?_⟩⟩
    · exfalso
      rcases hv with hv | hv | hv | hv | hv | hv | hv
      · exact hc1 hv
      · exact hc2 hv
      · exact hc3 ⟨by rw [an73_25G_or] at hv; exact hv.1, hv.2⟩
      · exact hc4 hv
      · exact hc5 hv
      · exact hc6 hv
      · exact hc7 hv
    · show an73BasePageAbility (setField64 modBasePage0 _ _ cleaned) = cleaned
      unfold an73BasePageAbility
      rw [getField64_setField64]
      exact Nat.mod_eq_of_lt hcl_lt
    · exact an73_supported_land_unsupported _

/-- Claim C5 counterexample: on a base page whose ability field is zero the
claim as stated demands an UNSUPPORTED failure (the ability is zero after
masking), but the function returns OK. -/
theorem fm10000AnValidateBasePage_zeroAbility_cex :
    ¬ ((fm10000AnValidateBasePage
          { speed1G := false, speed10G := false, speed25G := false,
            speed40G := false, speed100G := false }
          FmAnMode.clause73 0 0).1 = FmStatus.errUnsupported) := by
  decide

/-- Claim C5 witness: a base page advertising 1000BASE-KX together with one
unsupported ability bit, on a fully capable port, passes validation with
the unsupported bit cleared. -/
theorem fm10000AnValidateBasePage_spec_witness :
    an73BasePageAbility (3 * 2 ^ 21) ≠ 0 ∧
    fm10000AnValidateBasePage
        { speed1G := true, speed10G := true, speed25G := true,
          speed40G := true, speed100G := true }
        FmAnMode.clause73 (3 * 2 ^ 21) 0 =
      (FmStatus.ok,
       setField64 0 FM10000_AN_73_BASE_PAGE_TX_l_A
         FM10000_AN_73_BASE_PAGE_TX_s_A 1) := by
  refine ⟨by decide, ?_⟩
  have h := fm10000AnValidateBasePage_spec
    { speed1G := true, speed10G := true, speed25G := true,
      speed40G := true, speed100G := true } (3 * 2 ^ 21) 0 (by decide)
  have h3 := (h.2.2) (by decide) (by decide)
  have hcl : an73BasePageAbility (3 * 2 ^ 21) &&&
      FM10000_AN73_SUPPORTED_ABILITIES = 1 := by decide
  rw [hcl] at h3
  exact h3.1

/-- Claim C10: for every port and every base page whose Clause 73 ability field
is zero on input, fm10000AnValidateBasePage performs no masking and no
capability check (the result does not depend on the capabilities), returns
OK, and writes a zero ability field into the returned modified base page. -/
theorem fm10000AnValidateBasePage_zeroAbility_ok (caps : PortCapabilities)
    (basepage modBasePage0 : Nat) (h : an73BasePageAbility basepage = 0) :
    fm10000AnValidateBasePage caps FmAnMode.clause73 basepage modBasePage0 =
      (FmStatus.ok,
       setField64 modBasePage0 FM10000_AN_73_BASE_PAGE_TX_l_A
         FM10000_AN_73_BASE_PAGE_TX_s_A 0) ∧
    an73BasePageAbility
        (fm10000AnValidateBasePage caps FmAnMode.clause73 basepage modBasePage0).2
      = 0 := by
  constructor
  · simp only [fm10000AnValidateBasePage]
    rw [if_neg (fun hne => hne h), h]
  · simp only [fm10000AnValidateBasePage]
    rw [if_neg (fun hne => hne h), h]
    unfold an73BasePageAbility
    rw [getField64_setField64, Nat.zero_mod]

/-- Claim C10 witness: a base page with bits outside the ability field set (bit
50) and zero ability passes through with OK and a zero ability field in
the output page. -/
theorem fm10000AnValidateBasePage_zeroAbility_ok_witness :
    an73BasePageAbility (2 ^ 50) = 0 ∧
    fm10000AnValidateBasePage
        { speed1G := false, speed10G := false, speed25G := false,
          speed40G := false, speed100G := false }
        FmAnMode.clause73 (2 ^ 50) 7 =
      (FmStatus.ok,
       setField64 7 FM10000_AN_73_BASE_PAGE_TX_l_A
         FM10000_AN_73_BASE_PAGE_TX_s_A 0) :=
  ⟨by decide,
   (fm10000AnValidateBasePage_zeroAbility_ok
      { speed1G := false, speed10G := false, speed25G := false,
        speed40G := false, speed100G := false } (2 ^ 50) 7 (by decide)).1⟩

/-- Claim-side priority over the Clause 73 ability field: 100G, then 40G,
then 25G (from the ability bits or from the 25G next-page indicator), then
10G, then KX at the 2.5 Gbps rate carrier. -/
def an73PrioritySpeed (ability : Nat) (np25 : Bool) : Nat × SchedPortMode :=
  if ability &&& FM10000_AN73_ABILITIES_100G ≠ 0 then
    (100000, SchedPortMode.quad)
  else if ability &&& FM10000_AN73_ABILITIES_40G ≠ 0 then
    (40000, SchedPortMode.quad)
  else if ability &&& (FM10000_AN73_ABILITY_25GBASE_KR |||
                       FM10000_AN73_ABILITY_25GBASE_CR) ≠ 0 ∨ np25 = true then
    (25000, SchedPortMode.single)
  else if ability &&& FM10000_AN73_ABILITY_10GBASE_KR ≠ 0 then
    (10000, SchedPortMode.single)
  else if ability &&& FM10000_AN73_ABILITY_1000BASE_KX ≠ 0 then
    (2500, SchedPortMode.single)
  else (0, SchedPortMode.modeNone)

/-- Claim-side synthesized ability mask for a zero base page (lines
1512-1530): the supported abilities with the 40G pair masked off when the
port is not 40G-capable and the 100G pair masked off when it is not
100G-capable (complements taken in the 32-bit fm_uint word, as in the
source). -/
def an73SynthesizedAbility (is40GCapable is100GCapable : Bool) : Nat :=
  let a := FM10000_AN73_SUPPORTED_ABILITIES
  let a :=
    if is40GCapable then a
    else a &&& (0xFFFFFFFF ^^^ FM10000_AN73_ABILITIES_40G)
  if is100GCapable then a
  else a &&& (0xFFFFFFFF ^^^ FM10000_AN73_ABILITIES_100G)

/-- Claim C6 counterexample: a CLAUSE_73 call with a zero base page, no
next-page indicator and no 40G/100G capability has a zero ability field,
over which the claimed priority yields no speed at all, yet the function
returns (25000, SINGLE): it substitutes a capability-synthesized mask for
the ability field of the zero base page. -/
theorem fm10000AnGetMaxSpeedAbilityAndMode_zeroBasePage_cex :
    an73BasePageAbility 0 = 0 ∧
    isAn25GConfiguredInNextPage 0 [] = some (FmStatus.ok, false) ∧
    fm10000AnGetMaxSpeedAbilityAndMode false false 0 FmAnMode.clause73 0 []
      = some (FmStatus.ok, 25000, SchedPortMode.single) ∧
    ¬ (fm10000AnGetMaxSpeedAbilityAndMode false false 0 FmAnMode.clause73 0 []
        = some (FmStatus.ok, an73PrioritySpeed (an73BasePageAbility 0) false)) := by
  decide

/-- Claim C6 (amended): for a CLAUSE_73 call whose next-page scan yields
the 25G indicator np25, the result follows the priority 100G (100000,
QUAD), 40G (40000, QUAD), 25G (25000, SINGLE), 10G (10000, SINGLE), KX
(2500, SINGLE) over the ability field of a nonzero base page, and over the
capability-synthesized supported mask (40G/100G masked off on ports
without that capability) when the base page is zero; (25000, SINGLE) is
also returned on the indicator alone when the base page is nonzero and no
higher-priority ability and no 25G ability bit is set; and for CLAUSE_37
or SGMII the result is (1000, SINGLE). -/
theorem fm10000AnGetMaxSpeedAbilityAndMode_spec (is40 is100 : Bool)
    (oui basepage : Nat) (nextPages : List Nat) (np25 : Bool)
    (hscan : isAn25GConfiguredInNextPage oui nextPages =
      some (FmStatus.ok, np25)) :
    (basepage ≠ 0 →
      fm10000AnGetMaxSpeedAbilityAndMode is40 is100 oui FmAnMode.clause73
          basepage nextPages
        = some (FmStatus.ok,
            an73PrioritySpeed (an73BasePageAbility basepage) np25)) ∧
    (basepage = 0 →
      fm10000AnGetMaxSpeedAbilityAndMode is40 is100 oui FmAnMode.clause73
          basepage nextPages
        = some (FmStatus.ok,
            an73PrioritySpeed (an73SynthesizedAbility is40 is100) np25)) ∧
    (np25 = true → basepage ≠ 0 →
     an73BasePageAbility basepage &&& FM10000_AN73_ABILITIES_100G = 0 →
     an73BasePageAbility basepage &&& FM10000_AN73_ABILITIES_40G = 0 →
     an73BasePageAbility basepage &&& (FM10000_AN73_ABILITY_25GBASE_KR |||
        FM10000_AN73_ABILITY_25GBASE_CR) = 0 →
      fm10000AnGetMaxSpeedAbilityAndMode is40 is100 oui FmAnMode.clause73
          basepage nextPages
        = some (FmStatus.ok, 25000, SchedPortMode.single)) ∧
    (∀ m, m = FmAnMode.clause37 ∨ m = FmAnMode.sgmii →
      fm10000AnGetMaxSpeedAbilityAndMode is40 is100 oui m basepage nextPages
        = some (FmStatus.ok, 1000, SchedPortMode.single)) := by
  refine ⟨?_, ?_, ?_, ?_⟩
  · intro hbp
    simp only [fm10000AnGetMaxSpeedAbilityAndMode, if_neg hbp, hscan]
    simp only [an73PrioritySpeed]
    split_ifs <;> simp_all
  · intro hbp0
    subst hbp0
    cases is40 <;> cases is100 <;>
      simp [fm10000AnGetMaxSpeedAbilityAndMode, hscan, an73SynthesizedAbility,
        an73PrioritySpeed, FM10000_AN73_SUPPORTED_ABILITIES,
        FM10000_AN73_ABILITIES_40G, FM10000_AN73_ABILITIES_100G,
        FM10000_AN73_ABILITY_1000BASE_KX, FM10000_AN73_ABILITY_10GBASE_KR,
        FM10000_AN73_ABILITY_25GBASE_KR, FM10000_AN73_ABILITY_25GBASE_CR,
        FM10000_AN73_ABILITY_40GBASE_KR4, FM10000_AN73_ABILITY_40GBASE_CR4,
        FM10000_AN73_ABILITY_100GBASE_KR4, FM10000_AN73_ABILITY_100GBASE_CR4] <;>
      decide
  · intro h25 hbp h100 h40 hk25
    simp only [fm10000AnGetMaxSpeedAbilityAndMode, if_neg hbp, hscan]
    simp [h25, h100, h40, hk25]
  · intro m hm
    rcases hm with hm | hm <;> (subst hm; rfl)

/-- Claim C6 witness: a base page advertising only 10GBASE-KR, with a matching
OUI-tagged extended-technology-ability next-page pair whose bit 21 is set,
yields (25000, SINGLE); the same next pages with a zero base page on a
40G/100G-capable port yield (100000, QUAD) from the synthesized mask. -/
theorem fm10000AnGetMaxSpeedAbilityAndMode_spec_witness :
    isAn25GConfiguredInNextPage 0 [5, 3 + 2 ^ 21] = some (FmStatus.ok, true) ∧
    fm10000AnGetMaxSpeedAbilityAndMode false false 0 FmAnMode.clause73
        (2 ^ 23) [5, 3 + 2 ^ 21]
      = some (FmStatus.ok, 25000, SchedPortMode.single) ∧
    fm10000AnGetMaxSpeedAbilityAndMode true true 0 FmAnMode.clause73
        0 [5, 3 + 2 ^ 21]
      = some (FmStatus.ok, 100000, SchedPortMode.quad) := by
  refine ⟨by decide, ?_, ?_⟩
  · have h := fm10000AnGetMaxSpeedAbilityAndMode_spec false false 0 (2 ^ 23)
      [5, 3 + 2 ^ 21] true (by decide)
    exact h.2.2.1 rfl (by decide) (by decide) (by decide) (by decide)
  · have h := fm10000AnGetMaxSpeedAbilityAndMode_spec true true 0 0
      [5, 3 + 2 ^ 21] true (by decide)
    exact (h.2.1 rfl).trans (by decide)

/-- Invariant of the fm10000AnGetTimeScale loop: started at timescale k0
with divisor 10^(k0-2), if some timescale in [k0, 7] yields a count below
the hardware maximum, the loop returns the first such timescale with its
count and the effective value 10^(timescale-2) * count. -/
theorem fm10000AnGetTimeScaleLoop_found (u m : Nat) :
    ∀ (fuel k0 lt : Nat), k0 + fuel = 8 → 2 ≤ k0 →
      (∃ k, k0 ≤ k ∧ k ≤ 7 ∧ u / 10 ^ (k - 2) < m) →
      ∃ kmin,
        fm10000AnGetTimeScaleLoop u m fuel k0 (10 ^ (k0 - 2)) lt =
          (kmin, u / 10 ^ (kmin - 2), 10 ^ (kmin - 2) * (u / 10 ^ (kmin - 2))) ∧
        k0 ≤ kmin ∧ kmin ≤ 7 ∧ u / 10 ^ (kmin - 2) < m ∧
        ∀ j, k0 ≤ j → j < kmin → ¬ (u / 10 ^ (j - 2) < m) := by
  intro fuel
  induction fuel with
  | zero =>
      intro k0 lt hk _ hex
      obtain ⟨k, h1, h2, _⟩ := hex
      omega
  | succ n ih =>
      intro k0 lt hk hk2 hex
      by_cases hc : u / 10 ^ (k0 - 2) < m
      · refine ⟨k0, ?_, le_refl _, by omega, hc, by omega⟩
        simp only [fm10000AnGetTimeScaleLoop, if_pos hc]
        rw [Nat.mul_div_cancel _ (by norm_num : (0:Nat) < 10)]
      · obtain ⟨k, ha, hb, hcond⟩ := hex
        have hkne : k ≠ k0 := fun he => hc (he ▸ hcond)
        have hpow : 10 ^ (k0 - 2) * 10 = 10 ^ (k0 + 1 - 2) := by
          have he : k0 + 1 - 2 = k0 - 2 + 1 := by omega
          rw [he, pow_succ]
        have hrec := ih (k0 + 1) (u / 10 ^ (k0 - 2)) (by omega) (by omega)
          ⟨k, by omega, hb, hcond⟩
        obtain ⟨kmin, e1, e2, e3, e4, e5⟩ := hrec
        refine ⟨kmin, ?_, by omega, e3, e4, ?_⟩
        · simp only [fm10000AnGetTimeScaleLoop, if_neg hc]
          rw [hpow]
          exact e1
        · intro j hj1 hj2
          by_cases hj : j = k0
          · subst hj
            exact hc
          · exact e5 j (by omega) hj2

/-- Claim C7: whenever some timescale in [2, 7] gives count = usec / 10 ^
(timescale - 2) below the hardware maximum, fm10000AnGetTimeScale returns
the first such (timescale, count), its effective timeout equals 10 ^
(timescale - 2) * count, and the effective timeout differs from usec by
less than 10 ^ (timescale - 1). -/
theorem fm10000AnGetTimeScale_spec (u m : Nat)
    (hex : ∃ k, 2 ≤ k ∧ k ≤ 7 ∧ u / 10 ^ (k - 2) < m) :
    2 ≤ (fm10000AnGetTimeScale u m).1 ∧
    (fm10000AnGetTimeScale u m).1 ≤ 7 ∧
    (fm10000AnGetTimeScale u m).2.1 =
      u / 10 ^ ((fm10000AnGetTimeScale u m).1 - 2) ∧
    (fm10000AnGetTimeScale u m).2.1 < m ∧
    (∀ j, 2 ≤ j → j < (fm10000AnGetTimeScale u m).1 →
      m ≤ u / 10 ^ (j - 2)) ∧
    (fm10000AnGetTimeScale u m).2.2 =
      10 ^ ((fm10000AnGetTimeScale u m).1 - 2) * (fm10000AnGetTimeScale u m).2.1 ∧
    (fm10000AnGetTimeScale u m).2.2 ≤ u ∧
    u - (fm10000AnGetTimeScale u m).2.2 <
      10 ^ ((fm10000AnGetTimeScale u m).1 - 1) := by
  have h0 : (10:Nat) ^ (2 - 2) = 1 := by norm_num
  have hrun := fm10000AnGetTimeScaleLoop_found u m 6 2 0 (by norm_num)
    (le_refl 2) hex
  obtain ⟨kmin, e1, e2, e3, e4, e5⟩ := hrun
  rw [h0] at e1
  have hres : fm10000AnGetTimeScale u m =
      (kmin, u / 10 ^ (kmin - 2), 10 ^ (kmin - 2) * (u / 10 ^ (kmin - 2))) := e1
  rw [hres]
  dsimp only
  have hp : (0:Nat) < 10 ^ (kmin - 2) := Nat.pos_pow_of_pos _ (by norm_num)
  have hdm := Nat.div_add_mod u (10 ^ (kmin - 2))
  have hmod : u % 10 ^ (kmin - 2) < 10 ^ (kmin - 2) := Nat.mod_lt _ hp
  have hple : (10:Nat) ^ (kmin - 2) ≤ 10 ^ (kmin - 1) :=
    Nat.pow_le_pow_right (by norm_num) (by omega)
  refine ⟨e2, e3, rfl, e4, ?_, rfl, ?_, ?_⟩
  · intro j hj1 hj2
    exact Nat.le_of_not_lt (e5 j hj1 hj2)
  · omega
  · omega

/-- Claim C7 witness: usec 1234, max 100: the loop settles at timescale 4 with
count 12 and effective timeout 1200, within 10 ^ 3 of the request. -/
theorem fm10000AnGetTimeScale_spec_witness :
    (∃ k, 2 ≤ k ∧ k ≤ 7 ∧ 1234 / 10 ^ (k - 2) < 100) ∧
    1234 - (fm10000AnGetTimeScale 1234 100).2.2 <
      10 ^ ((fm10000AnGetTimeScale 1234 100).1 - 1) :=
  ⟨⟨4, by decide⟩,
   (fm10000AnGetTimeScale_spec 1234 100 ⟨4, by decide⟩).2.2.2.2.2.2.2⟩

/-- Claim C9 (the code violates it): a single next page carrying the OUI message
code makes fm10000AnGetNextPageExtTechAbilityIndex read nextPages[1], one
position past the end of the array: with Option-returning indexing the
lookup yields none, so the whole scan returns none. -/
theorem fm10000AnGetNextPageExtTechAbilityIndex_oob :
    fm10000AnGetNextPageExtTechAbilityIndex 0
      [FM10000_AN_NEXTPAGE_OUI_MSG_CODE] = none := by
  decide

/-- First record of the two-port array used for the C1 evaluation: sits at
index 0 and starts with an all-zero EEPROM cache. -/
def xcvrInfoPort0 : XcvrInfo := defaultXcvrInfo

/-- Second record of the two-port array used for the C1 evaluation: a
present module with cached data and a pending config retry. -/
def xcvrInfoPort1 : XcvrInfo :=
  { modState := FM_PLAT_XCVR_PRESENT, type := XcvrType.otherXcvr 3,
    cableLength := 5, present := true, eepromBaseValid := true,
    eepromExtValid := true, eepromReadRetries := 2, configRetries := 3,
    anEnabled := true, ethMode := FmEthMode.disabled,
    eeprom := List.replicate XCVR_EEPROM_CACHE_SIZE 0 }

set_option maxRecDepth 8192 in
/-- Claim C1 (the code violates it): at port index 1 whose hardware-valid
PRESENT bit clears, the update-state pass resets type, cable length,
checksum flags and the EEPROM-read-retry counter of record 1, but leaves
the config-retry counter of record 1 at its old value and the EEPROM
cache of record 1 untouched, instead filling the cache of record 0 with 0xFF. -/
theorem xcvrUpdatePortState_presentChange_eval :
    ((xcvrUpdatePortState [xcvrInfoPort0, xcvrInfoPort1] 1
          FM_PLAT_XCVR_PRESENT 0).1.getD 1 defaultXcvrInfo).type
        = XcvrType.notPresent ∧
    ((xcvrUpdatePortState [xcvrInfoPort0, xcvrInfoPort1] 1
          FM_PLAT_XCVR_PRESENT 0).1.getD 1 defaultXcvrInfo).cableLength = 0 ∧
    ((xcvrUpdatePortState [xcvrInfoPort0, xcvrInfoPort1] 1
          FM_PLAT_XCVR_PRESENT 0).1.getD 1 defaultXcvrInfo).present = false ∧
    ((xcvrUpdatePortState [xcvrInfoPort0, xcvrInfoPort1] 1
          FM_PLAT_XCVR_PRESENT 0).1.getD 1 defaultXcvrInfo).eepromBaseValid
        = false ∧
    ((xcvrUpdatePortState [xcvrInfoPort0, xcvrInfoPort1] 1
          FM_PLAT_XCVR_PRESENT 0).1.getD 1 defaultXcvrInfo).eepromExtValid
        = false ∧
    ((xcvrUpdatePortState [xcvrInfoPort0, xcvrInfoPort1] 1
          FM_PLAT_XCVR_PRESENT 0).1.getD 1 defaultXcvrInfo).eepromReadRetries
        = 0 ∧
    ((xcvrUpdatePortState [xcvrInfoPort0, xcvrInfoPort1] 1
          FM_PLAT_XCVR_PRESENT 0).1.getD 1 defaultXcvrInfo).configRetries = 3 ∧
    ((xcvrUpdatePortState [xcvrInfoPort0, xcvrInfoPort1] 1
          FM_PLAT_XCVR_PRESENT 0).1.getD 1 defaultXcvrInfo).eeprom
        = List.replicate XCVR_EEPROM_CACHE_SIZE 0 ∧
    ¬ (((xcvrUpdatePortState [xcvrInfoPort0, xcvrInfoPort1] 1
          FM_PLAT_XCVR_PRESENT 0).1.getD 1 defaultXcvrInfo).eeprom
        = List.replicate XCVR_EEPROM_CACHE_SIZE 0xFF) ∧
    ((xcvrUpdatePortState [xcvrInfoPort0, xcvrInfoPort1] 1
          FM_PLAT_XCVR_PRESENT 0).1.getD 0 defaultXcvrInfo).eeprom
        = List.replicate XCVR_EEPROM_CACHE_SIZE 0xFF := by
  decide
